import Mathlib

/-!
Shallow embedding of `stremlitchat/yooo.py`, a single-file Streamlit chat
application: a weather-lookup helper (`get_weather`), a memoized agent
factory (`load_agent` under `st.cache_resource`), and the Streamlit script
body (history rendering, credential gate with `st.stop`, and the chat-input
turn handler with its try/except around the agent invocation).

External effects (HTTP transport, Streamlit UI calls, the agent call) are
modelled by oracles passed in as arguments and by an explicit list of
emitted effects/events, so that every claim about ordering, message
contents and absence of network I/O is a statement about a total Lean
function translated line-by-line from the source.
-/

set_option autoImplicit false

namespace WeatherApp

/-- Python truthiness of an optional string credential: `not x` is true
exactly when `x` is `None` or the empty string. Used for the source's
`if not OPENWEATHER_API_KEY` / `if not GROQ_API_KEY` checks. -/
def falsy : Option String → Bool
  | none => true
  | some s => s == ""

/-- JSON values, the shape of the dictionaries `get_weather` returns
(`response.json()` bodies and the literal error dicts). -/
inductive Json where
  | null : Json
  | bool : Bool → Json
  | num : Int → Json
  | str : String → Json
  | arr : List Json → Json
  | obj : List (String × Json) → Json

/-- An outbound HTTP request: the URL and the query parameters passed to
`requests.get(base_url, params=params)`. -/
structure HttpRequest where
  url : String
  params : List (String × String)
deriving DecidableEq, Repr

/-- A response from the transport: status code plus the parsed JSON body
(`response.json()`). -/
structure HttpResponse where
  status_code : Nat
  body : Json

/-- Outcome of the `requests.get` transport call. Per the requests
library's documented contract, every exception it raises is a
`requests.exceptions.RequestException`; `exn` carries its string form. -/
inductive TransportResult where
  | exn : String → TransportResult
  | ok : HttpResponse → TransportResult

/-- Observable side effects of `get_weather`: the outbound GET itself and
the `st.error` warning banner. -/
inductive Effect where
  | httpGet : HttpRequest → Effect
  | stError : String → Effect
deriving DecidableEq, Repr

/-- Line 31 of the source: the OpenWeatherMap endpoint. -/
def base_url : String := "https://api.openweathermap.org/data/2.5/weather"

/-- Lines 32-36 of the source: the query parameters of the single GET. -/
def weather_request (key city : String) : HttpRequest :=
  ⟨base_url, [("q", city), ("appid", key), ("units", "metric")]⟩

/-- `response.raise_for_status()` raises `HTTPError` (a subclass of
`RequestException`) exactly for client/server error codes in [400, 600). -/
def bad_status (code : Nat) : Bool := 400 ≤ code && code < 600

/-- String form of the `HTTPError` raised by `raise_for_status`; abstracts
the requests library's rendering (no claim inspects this text). -/
def http_error_reason (code : Nat) : String := s!"HTTP error {code}"

/-- Line 43 of the source: the fixed-format error dictionary. -/
def fetch_error (city : String) : Json :=
  Json.obj [("error", Json.str s!"Could not fetch weather data for {city}. Please check the city name.")]

/-- Shallow embedding of `get_weather` (lines 18-43). The transport oracle
stands for `requests.get`; the returned list records the emitted effects in
program order. The try/except catches `RequestException`, which by the
requests contract covers every fault of the transport call, so the
embedding is a total function. -/
def get_weather (OPENWEATHER_API_KEY : Option String)
    (transport : HttpRequest → TransportResult) (city : String) :
    Json × List Effect :=
  if falsy OPENWEATHER_API_KEY then
    (Json.obj [("error", Json.str "OpenWeatherMap API key is not set.")], [])
  else
    let req := weather_request (OPENWEATHER_API_KEY.getD "") city
    match transport req with
    | TransportResult.exn e =>
        (fetch_error city, [Effect.httpGet req, Effect.stError s!"API Request Error: {e}"])
    | TransportResult.ok resp =>
        if bad_status resp.status_code then
          let reason := http_error_reason resp.status_code
          (fetch_error city, [Effect.httpGet req, Effect.stError s!"API Request Error: {reason}"])
        else
          (resp.body, [Effect.httpGet req])

/-- Whether an effect is the outbound GET (network I/O). -/
def isGet : Effect → Bool
  | Effect.httpGet _ => true
  | _ => false

/-- Value returned by `load_agent` (lines 49-70): Python `None` when the
LLM credential is falsy, otherwise a `ReActAgent` instance, identified by
the allocation order of its construction so that identity-equality is
expressible. -/
inductive AgentRef where
  | pyNone : AgentRef
  | agent : Nat → AgentRef
deriving DecidableEq, Repr

/-- Process-wide state: the allocation counter for fresh agent objects and
the `st.cache_resource` cache of `load_agent` (empty until first call,
never invalidated while the process lives). -/
structure ProcState where
  nextId : Nat
  agentCache : Option AgentRef
deriving DecidableEq, Repr

/-- A freshly started process: nothing allocated, cache empty. -/
def freshProc : ProcState := ⟨0, none⟩

/-- Body of `load_agent` without the cache (lines 56-70): returns `None`
when `GROQ_API_KEY` is falsy, otherwise constructs a fresh `ReActAgent`
(one allocation). -/
def load_agent_body (GROQ_API_KEY : Option String) (nextId : Nat) : AgentRef × Nat :=
  if falsy GROQ_API_KEY then (AgentRef.pyNone, nextId)
  else (AgentRef.agent nextId, nextId + 1)

/-- `load_agent` as decorated with `@st.cache_resource` (line 48): on a
cache hit the stored value is returned unchanged; on a miss the body runs
once and its result is stored. -/
def load_agent (GROQ_API_KEY : Option String) (p : ProcState) : AgentRef × ProcState :=
  match p.agentCache with
  | some r => (r, p)
  | none =>
      let rn := load_agent_body GROQ_API_KEY p.nextId
      (rn.1, ⟨rn.2, some rn.1⟩)

/-- Result of the n-th call (0-indexed) in a sequence of `load_agent`
calls starting from process state `p`. -/
def load_agent_nth (GROQ_API_KEY : Option String) (p : ProcState) : Nat → AgentRef × ProcState
  | 0 => load_agent GROQ_API_KEY p
  | n + 1 => load_agent_nth GROQ_API_KEY (load_agent GROQ_API_KEY p).2 n

/-- One chat message of the session history: the dict
`{"role": ..., "content": ...}`. -/
structure Message where
  role : String
  content : String
deriving DecidableEq, Repr

/-- Line 84 of the source: the synthesized assistant greeting. -/
def greeting : Message := ⟨"assistant", "Hi! How can I help you with the weather today?"⟩

/-- Outcome of `asyncio.run(get_response(prompt))` (lines 112-118): the
final agent response (its `str` form) or a raised exception (its `str`
form), supplied as a per-turn oracle for the external agent. -/
inductive AgentOutcome where
  | ok : String → AgentOutcome
  | exn : String → AgentOutcome
deriving DecidableEq, Repr

/-- Per-session Streamlit state: `st.session_state.messages`, absent until
the first run of the session initializes it. -/
structure SessionState where
  messages : Option (List Message)
deriving DecidableEq, Repr

/-- A session before its first script run. -/
def initSession : SessionState := ⟨none⟩

/-- Environment-derived configuration of the process: the two credentials,
read at the top of the script (lines 14-15) and fixed for the process's
lifetime. -/
structure Env where
  groqKey : Option String
  owKey : Option String
deriving DecidableEq, Repr

/-- Per-run external input: what `st.chat_input` returns (`none` when no
message was submitted) and the agent-call oracle for this turn. -/
structure TurnInput where
  prompt : Option String
  outcome : AgentOutcome
deriving DecidableEq, Repr

/-- UI-visible events of one script run, in program order. -/
inductive UiEvent where
  | renderMessage : String → String → UiEvent
  | appendMsg : Message → UiEvent
  | stError : String → UiEvent
  | stInfo : String → UiEvent
  | stStop : UiEvent
  | chatInputShown : UiEvent
  | markdown : String → String → UiEvent
  | agentInvoked : AgentRef → String → UiEvent
deriving DecidableEq, Repr

/-- Whether a UI event is network activity: only the agent invocation
(which performs the LLM and tool calls) touches the network in a turn. -/
def networkEvent : UiEvent → Bool
  | UiEvent.agentInvoked _ _ => true
  | _ => false

/-- Result of one top-to-bottom run of the Streamlit script. -/
structure RunResult where
  session : SessionState
  proc : ProcState
  events : List UiEvent

/-- Shallow embedding of one top-to-bottom run of the script body
(lines 73-125): initialize `st.session_state.messages` if absent (83-84),
render the history (87-89), call `load_agent` (92), stop when either
credential is falsy (95-98), else show the chat input (101) and, when a
truthy prompt was submitted, append the user message (103), render it
(104-105) and invoke the agent inside try/except (110-125). `st.stop`
ends the run, which the embedding reflects by returning at that point. -/
def run_script (env : Env) (t : TurnInput) (s : SessionState) (p : ProcState) : RunResult :=
  let msgs := s.messages.getD [greeting]
  let evs0 := msgs.map (fun m => UiEvent.renderMessage m.role m.content)
  let ap := load_agent env.groqKey p
  if falsy env.groqKey || falsy env.owKey then
    { session := ⟨some msgs⟩, proc := ap.2,
      events := evs0 ++
        [UiEvent.stError "One or more API keys are missing. Please configure your secrets.",
         UiEvent.stInfo "You need to set `GROQ_API_KEY` and `OPENWEATHER_API_KEY` in your Streamlit secrets.",
         UiEvent.stStop] }
  else
    if falsy t.prompt then
      { session := ⟨some msgs⟩, proc := ap.2, events := evs0 ++ [UiEvent.chatInputShown] }
    else
      let prompt := t.prompt.getD ""
      let msgs1 := msgs ++ [⟨"user", prompt⟩]
      let evs1 := evs0 ++
        [UiEvent.chatInputShown, UiEvent.appendMsg ⟨"user", prompt⟩, UiEvent.markdown "user" prompt]
      match t.outcome with
      | AgentOutcome.ok text =>
          { session := ⟨some (msgs1 ++ [⟨"assistant", text⟩])⟩, proc := ap.2,
            events := evs1 ++
              [UiEvent.agentInvoked ap.1 prompt, UiEvent.markdown "assistant" text,
               UiEvent.appendMsg ⟨"assistant", text⟩] }
      | AgentOutcome.exn e =>
          { session := ⟨some (msgs1 ++ [⟨"assistant", s!"Sorry, I ran into a problem: {e}"⟩])⟩,
            proc := ap.2,
            events := evs1 ++
              [UiEvent.agentInvoked ap.1 prompt, UiEvent.stError s!"An error occurred: {e}",
               UiEvent.appendMsg ⟨"assistant", s!"Sorry, I ran into a problem: {e}"⟩] }

/-- State update of one run: the session and process state it leaves behind. -/
def step (env : Env) (sp : SessionState × ProcState) (t : TurnInput) : SessionState × ProcState :=
  let r := run_script env t sp.1 sp.2
  (r.session, r.proc)

/-- State after a sequence of script runs of one session, starting from a
fresh session in a fresh process (credentials fixed for the process). -/
def run_turns (env : Env) (ts : List TurnInput) : SessionState × ProcState :=
  ts.foldl (step env) (initSession, freshProc)

/-- The `load_agent` cache only ever holds a value produced by the body
under this process's fixed credentials: it is `None` exactly when the LLM
credential is falsy. -/
def cacheConsistent (env : Env) (p : ProcState) : Prop :=
  ∀ r, p.agentCache = some r → (r = AgentRef.pyNone ↔ falsy env.groqKey = true)

/- ### Helper lemmas -/

theorem render_not_network {msgs : List Message} {ev : UiEvent}
    (h : ev ∈ msgs.map (fun m => UiEvent.renderMessage m.role m.content)) :
    networkEvent ev = false := by
  obtain ⟨m, _, rfl⟩ := List.mem_map.1 h
  rfl

theorem load_agent_cache_hit (key : Option String) (p : ProcState) (r : AgentRef)
    (h : p.agentCache = some r) : load_agent key p = (r, p) := by
  unfold load_agent
  rw [h]

theorem load_agent_cache_set (key : Option String) (p : ProcState) :
    (load_agent key p).2.agentCache = some (load_agent key p).1 := by
  unfold load_agent
  match hc : p.agentCache with
  | some r =>
      simp
      exact hc
  | none => simp

theorem load_agent_nth_stable (key : Option String) :
    ∀ (n : Nat) (p : ProcState) (r : AgentRef), p.agentCache = some r →
      load_agent_nth key p n = (r, p) := by
  intro n
  induction n with
  | zero => intro p r h; exact load_agent_cache_hit key p r h
  | succ n ih =>
      intro p r h
      show load_agent_nth key (load_agent key p).2 n = (r, p)
      rw [load_agent_cache_hit key p r h]
      exact ih p r h

theorem cacheConsistent_fresh (env : Env) : cacheConsistent env freshProc := by
  intro r h
  simp [freshProc] at h

theorem cacheConsistent_load_agent (env : Env) (p : ProcState)
    (h : cacheConsistent env p) : cacheConsistent env (load_agent env.groqKey p).2 := by
  intro r hr
  unfold load_agent at hr
  match hc : p.agentCache with
  | some r0 =>
      rw [hc] at hr
      exact h r hr
  | none =>
      rw [hc] at hr
      simp at hr
      subst hr
      unfold load_agent_body
      by_cases hg : falsy env.groqKey = true
      · simp [hg]
      · simp [hg]

theorem load_agent_not_none (env : Env) (p : ProcState)
    (h : cacheConsistent env p) (hg : falsy env.groqKey = false) :
    (load_agent env.groqKey p).1 ≠ AgentRef.pyNone := by
  unfold load_agent
  match hc : p.agentCache with
  | some r =>
      simp
      intro hr
      have := (h r hc).1 hr
      rw [hg] at this
      exact Bool.false_ne_true this
  | none =>
      simp [load_agent_body, hg]

theorem run_script_proc (env : Env) (t : TurnInput) (s : SessionState) (p : ProcState) :
    (run_script env t s p).proc = (load_agent env.groqKey p).2 := by
  unfold run_script
  by_cases h1 : (falsy env.groqKey || falsy env.owKey) = true
  · simp [h1]
  · by_cases h2 : falsy t.prompt = true
    · simp [h1, h2]
    · match ho : t.outcome with
      | AgentOutcome.ok text => simp [h1, h2, ho]
      | AgentOutcome.exn e => simp [h1, h2, ho]

/- ### Claim theorems -/

/-- C3: for every city, when the weather credential is absent (`None`),
`get_weather` returns the missing-key error dictionary immediately and its
effect log is empty: no network I/O is performed. -/
theorem get_weather_no_key_no_network (transport : HttpRequest → TransportResult)
    (c : String) :
    get_weather none transport c =
      (Json.obj [("error", Json.str "OpenWeatherMap API key is not set.")], []) := rfl

/-- C2: for every city, when the credential is truthy and the transport
call raises (a `RequestException`, the only exception `requests.get`
raises), `get_weather` returns normally with the fixed-format error
dictionary naming the city; the effect log shows the attempted GET and the
warning banner, and no exception escapes. -/
theorem get_weather_transport_exn (key : Option String)
    (transport : HttpRequest → TransportResult) (c e : String)
    (hk : falsy key = false)
    (ht : transport (weather_request (key.getD "") c) = TransportResult.exn e) :
    get_weather key transport c =
      (fetch_error c,
       [Effect.httpGet (weather_request (key.getD "") c),
        Effect.stError s!"API Request Error: {e}"]) := by
  unfold get_weather
  simp [hk, ht]

/-- Closed instance of `get_weather_transport_exn` at a concrete key, city
and failing transport. -/
theorem get_weather_transport_exn_witness :
    get_weather (some "k") (fun _ => TransportResult.exn "boom") "Paris" =
      (fetch_error "Paris",
       [Effect.httpGet (weather_request "k" "Paris"),
        Effect.stError "API Request Error: boom"]) :=
  get_weather_transport_exn (some "k") (fun _ => TransportResult.exn "boom")
    "Paris" "boom" (by decide) rfl

/-- C8: for every city, when the credential is truthy, `get_weather`
issues exactly one outbound GET, whose query parameters are `q=city`,
`appid=key`, `units=metric`; and when the transport returns a success
status the provider's JSON body is returned verbatim. -/
theorem get_weather_single_get (key : Option String)
    (transport : HttpRequest → TransportResult) (c : String)
    (hk : falsy key = false) :
    (get_weather key transport c).2.filter isGet =
      [Effect.httpGet (weather_request (key.getD "") c)] ∧
    (∀ resp, transport (weather_request (key.getD "") c) = TransportResult.ok resp →
      bad_status resp.status_code = false →
      (get_weather key transport c).1 = resp.body) := by
  constructor
  · unfold get_weather
    simp [hk]
    match ht : transport (weather_request (key.getD "") c) with
    | TransportResult.exn e => simp [isGet]
    | TransportResult.ok resp =>
        by_cases hb : bad_status resp.status_code = true
        · simp [hb, isGet]
        · simp at hb
          simp [hb, isGet]
  · intro resp hresp hbad
    unfold get_weather
    simp [hk, hresp, hbad]

/-- Closed instance of `get_weather_single_get` at a concrete key, city
and succeeding transport. -/
theorem get_weather_single_get_witness :
    (get_weather (some "k") (fun _ => TransportResult.ok ⟨200, Json.num 15⟩) "London").2.filter isGet =
      [Effect.httpGet (weather_request "k" "London")] ∧
    (get_weather (some "k") (fun _ => TransportResult.ok ⟨200, Json.num 15⟩) "London").1 =
      Json.num 15 := by
  have h := get_weather_single_get (some "k")
    (fun _ => TransportResult.ok ⟨200, Json.num 15⟩) "London" (by decide)
  exact ⟨h.1, h.2 ⟨200, Json.num 15⟩ rfl (by decide)⟩

/-- C10: credential presence is truthiness, not a `None` check: with an
empty-string weather key, `get_weather` takes the missing-credential
branch (error dictionary, no network effect), and an empty-string
credential on either side makes the startup gate stop the script. -/
theorem empty_credential_is_missing (transport : HttpRequest → TransportResult)
    (c : String) (g w : Option String) (t : TurnInput) (s : SessionState) (p : ProcState) :
    get_weather (some "") transport c =
      (Json.obj [("error", Json.str "OpenWeatherMap API key is not set.")], []) ∧
    UiEvent.stStop ∈ (run_script ⟨g, some ""⟩ t s p).events ∧
    UiEvent.stStop ∈ (run_script ⟨some "", w⟩ t s p).events := by
  refine ⟨rfl, ?_, ?_⟩
  · unfold run_script
    simp [falsy]
  · unfold run_script
    simp [falsy]

/-- C4: `load_agent` is memoized for the process's lifetime: from a fresh
process, the first call constructs the agent (when the LLM credential is
truthy), and the n-th call returns exactly the first call's value and
leaves the process state of the first call unchanged — the same identity,
no reconstruction. -/
theorem load_agent_memoized (key : Option String) :
    (falsy key = false → (load_agent key freshProc).1 = AgentRef.agent 0) ∧
    ∀ n, load_agent_nth key freshProc n = load_agent key freshProc := by
  constructor
  · intro h
    simp [load_agent, freshProc, load_agent_body, h]
  · intro n
    match n with
    | 0 => rfl
    | Nat.succ m =>
        show load_agent_nth key (load_agent key freshProc).2 m = load_agent key freshProc
        have hset := load_agent_cache_set key freshProc
        rw [load_agent_nth_stable key m (load_agent key freshProc).2
          (load_agent key freshProc).1 hset]

/-- Closed instance of `load_agent_memoized`: with a concrete key, the
first call constructs agent 0 and the fourth call coincides with the
first. -/
theorem load_agent_memoized_witness :
    (load_agent (some "g") freshProc).1 = AgentRef.agent 0 ∧
    load_agent_nth (some "g") freshProc 3 = load_agent (some "g") freshProc :=
  ⟨(load_agent_memoized (some "g")).1 (by decide), (load_agent_memoized (some "g")).2 3⟩

/-- C1: for every turn whose agent invocation raises, the run completes
normally (the fault is caught, no `st.stop`): the session grows by exactly
the user message and an assistant message whose text is exactly
"Sorry, I ran into a problem: " followed by the exception's string form,
and a standalone error banner is emitted. -/
theorem turn_fault_caught (env : Env) (t : TurnInput) (s : SessionState) (p : ProcState)
    (pr e : String)
    (hg : falsy env.groqKey = false) (hw : falsy env.owKey = false)
    (hp : t.prompt = some pr) (hpr : pr ≠ "") (ho : t.outcome = AgentOutcome.exn e) :
    (run_script env t s p).session.messages =
      some ((s.messages.getD [greeting]) ++
        [⟨"user", pr⟩, ⟨"assistant", s!"Sorry, I ran into a problem: {e}"⟩]) ∧
    ((run_script env t s p).session.messages.getD []).length =
      (s.messages.getD [greeting]).length + 2 ∧
    UiEvent.stError s!"An error occurred: {e}" ∈ (run_script env t s p).events ∧
    UiEvent.stStop ∉ (run_script env t s p).events := by
  have hps : falsy (some pr) = false := by simp [falsy, hpr]
  unfold run_script
  simp [hg, hw, hp, hps, ho]

/-- Closed instance of `turn_fault_caught` at a concrete failing turn. -/
theorem turn_fault_caught_witness :
    (run_script ⟨some "g", some "w"⟩ ⟨some "hi", AgentOutcome.exn "boom"⟩
        ⟨some [greeting]⟩ freshProc).session.messages =
      some [greeting, ⟨"user", "hi"⟩, ⟨"assistant", "Sorry, I ran into a problem: boom"⟩] ∧
    UiEvent.stError "An error occurred: boom" ∈
      (run_script ⟨some "g", some "w"⟩ ⟨some "hi", AgentOutcome.exn "boom"⟩
        ⟨some [greeting]⟩ freshProc).events := by
  have h := turn_fault_caught ⟨some "g", some "w"⟩ ⟨some "hi", AgentOutcome.exn "boom"⟩
    ⟨some [greeting]⟩ freshProc "hi" "boom" (by decide) (by decide) rfl (by decide) rfl
  exact ⟨h.1, h.2.2.1⟩

/-- C5: when either credential is falsy, the run renders the explanatory
error and stops: no chat input widget is shown, no agent invocation
happens, and the history is not touched beyond initialization. -/
theorem missing_credentials_gate (env : Env) (t : TurnInput) (s : SessionState)
    (p : ProcState)
    (h : falsy env.groqKey = true ∨ falsy env.owKey = true) :
    UiEvent.stError "One or more API keys are missing. Please configure your secrets."
      ∈ (run_script env t s p).events ∧
    UiEvent.stStop ∈ (run_script env t s p).events ∧
    UiEvent.chatInputShown ∉ (run_script env t s p).events ∧
    (∀ a q, UiEvent.agentInvoked a q ∉ (run_script env t s p).events) ∧
    (run_script env t s p).session.messages = some (s.messages.getD [greeting]) := by
  have hc : (falsy env.groqKey || falsy env.owKey) = true := by
    rcases h with h | h <;> simp [h]
  unfold run_script
  simp [hc]

/-- Closed instance of `missing_credentials_gate` with the LLM credential
absent and a prompt/outcome that would otherwise produce a turn. -/
theorem missing_credentials_gate_witness :
    UiEvent.stStop ∈ (run_script ⟨none, some "w"⟩ ⟨some "hi", AgentOutcome.ok "sunny"⟩
      initSession freshProc).events ∧
    (∀ a q, UiEvent.agentInvoked a q ∉ (run_script ⟨none, some "w"⟩
      ⟨some "hi", AgentOutcome.ok "sunny"⟩ initSession freshProc).events) := by
  have h := missing_credentials_gate ⟨none, some "w"⟩ ⟨some "hi", AgentOutcome.ok "sunny"⟩
    initSession freshProc (Or.inl rfl)
  exact ⟨h.2.1, h.2.2.2.1⟩

/-- C6: in every turn with a truthy prompt, the user message is appended
to the session before any network activity: the event list splits at the
user-append, everything before it is network-free, and the agent
invocation comes after. -/
theorem user_message_before_network (env : Env) (t : TurnInput) (s : SessionState)
    (p : ProcState) (pr : String)
    (hg : falsy env.groqKey = false) (hw : falsy env.owKey = false)
    (hp : t.prompt = some pr) (hpr : pr ≠ "") :
    ∃ evA evB,
      (run_script env t s p).events = evA ++ UiEvent.appendMsg ⟨"user", pr⟩ :: evB ∧
      (∀ ev ∈ evA, networkEvent ev = false) ∧
      ∃ a, UiEvent.agentInvoked a pr ∈ evB := by
  have hps : falsy (some pr) = false := by simp [falsy, hpr]
  have hA : ∀ ev ∈ (s.messages.getD [greeting]).map
      (fun m => UiEvent.renderMessage m.role m.content) ++ [UiEvent.chatInputShown],
      networkEvent ev = false := by
    intro ev hev
    rcases List.mem_append.1 hev with hr | hr
    · exact render_not_network hr
    · rw [List.mem_singleton.1 hr]
      rfl
  match ho : t.outcome with
  | AgentOutcome.ok text =>
      refine ⟨(s.messages.getD [greeting]).map
          (fun m => UiEvent.renderMessage m.role m.content) ++ [UiEvent.chatInputShown],
        [UiEvent.markdown "user" pr,
         UiEvent.agentInvoked (load_agent env.groqKey p).1 pr,
         UiEvent.markdown "assistant" text,
         UiEvent.appendMsg ⟨"assistant", text⟩],
        ?_, hA, ⟨(load_agent env.groqKey p).1, by simp⟩⟩
      unfold run_script
      simp [hg, hw, hp, hps, ho]
  | AgentOutcome.exn e =>
      refine ⟨(s.messages.getD [greeting]).map
          (fun m => UiEvent.renderMessage m.role m.content) ++ [UiEvent.chatInputShown],
        [UiEvent.markdown "user" pr,
         UiEvent.agentInvoked (load_agent env.groqKey p).1 pr,
         UiEvent.stError s!"An error occurred: {e}",
         UiEvent.appendMsg ⟨"assistant", s!"Sorry, I ran into a problem: {e}"⟩],
        ?_, hA, ⟨(load_agent env.groqKey p).1, by simp⟩⟩
      unfold run_script
      simp [hg, hw, hp, hps, ho]

/-- Closed instance of `user_message_before_network` at a concrete turn. -/
theorem user_message_before_network_witness :
    ∃ evA evB,
      (run_script ⟨some "g", some "w"⟩ ⟨some "hi", AgentOutcome.ok "sunny"⟩
        initSession freshProc).events =
        evA ++ UiEvent.appendMsg ⟨"user", "hi"⟩ :: evB ∧
      (∀ ev ∈ evA, networkEvent ev = false) ∧
      ∃ a, UiEvent.agentInvoked a "hi" ∈ evB :=
  user_message_before_network ⟨some "g", some "w"⟩ ⟨some "hi", AgentOutcome.ok "sunny"⟩
    initSession freshProc "hi" (by decide) (by decide) rfl (by decide)

theorem run_script_messages (env : Env) (t : TurnInput) (s : SessionState) (p : ProcState) :
    ∃ tl, (run_script env t s p).session.messages =
      some ((s.messages.getD [greeting]) ++ tl) := by
  unfold run_script
  by_cases h1 : (falsy env.groqKey || falsy env.owKey) = true
  · exact ⟨[], by simp [h1]⟩
  · by_cases h2 : falsy t.prompt = true
    · exact ⟨[], by simp [h1, h2]⟩
    · match ho : t.outcome with
      | AgentOutcome.ok text =>
          exact ⟨[⟨"user", t.prompt.getD ""⟩, ⟨"assistant", text⟩], by simp [h1, h2, ho]⟩
      | AgentOutcome.exn e =>
          exact ⟨[⟨"user", t.prompt.getD ""⟩,
            ⟨"assistant", s!"Sorry, I ran into a problem: {e}"⟩], by simp [h1, h2, ho]⟩

theorem step_head_greeting (env : Env) (t : TurnInput) (sp : SessionState × ProcState)
    (h : (sp.1.messages.getD [greeting]).head? = some greeting) :
    ((step env sp t).1.messages.getD [greeting]).head? = some greeting := by
  obtain ⟨tl, htl⟩ := run_script_messages env t sp.1 sp.2
  show ((run_script env t sp.1 sp.2).session.messages.getD [greeting]).head? = some greeting
  rw [htl]
  cases hl : sp.1.messages.getD [greeting] with
  | nil => rw [hl] at h; simp at h
  | cons m ms =>
      rw [hl] at h
      simp at h
      simp [Option.getD_some, hl, List.cons_append, h]

theorem run_turns_head_greeting (env : Env) (ts : List TurnInput) :
    ((run_turns env ts).1.messages.getD [greeting]).head? = some greeting := by
  unfold run_turns
  have hstep : ∀ sp, (sp.1.messages.getD [greeting]).head? = some greeting →
      ((ts.foldl (step env) sp).1.messages.getD [greeting]).head? = some greeting := by
    induction ts with
    | nil => intro sp h; exact h
    | cons t ts ih =>
        intro sp h
        exact ih _ (step_head_greeting env t sp h)
  exact hstep (initSession, freshProc) rfl

/-- C7: the history is append-only — every run leaves the previous
messages as a prefix of the new ones — and after any sequence of turns of
a session the first message is still the synthesized assistant greeting
the session was initialized with. -/
theorem history_append_only_first_greeting (env : Env) (ts : List TurnInput)
    (t : TurnInput) (s : SessionState) (p : ProcState) :
    (∃ tl, (run_script env t s p).session.messages =
      some ((s.messages.getD [greeting]) ++ tl)) ∧
    ((run_turns env ts).1.messages.getD [greeting]).head? = some greeting :=
  ⟨run_script_messages env t s p, run_turns_head_greeting env ts⟩

theorem agent_invoked_inv (env : Env) (t : TurnInput) (s : SessionState) (p : ProcState)
    (a : AgentRef) (q : String)
    (h : UiEvent.agentInvoked a q ∈ (run_script env t s p).events) :
    falsy env.groqKey = false ∧ a = (load_agent env.groqKey p).1 := by
  unfold run_script at h
  by_cases h1 : (falsy env.groqKey || falsy env.owKey) = true
  · simp [h1] at h
  · by_cases h2 : falsy t.prompt = true
    · simp [h1, h2] at h
    · have hg : falsy env.groqKey = false := by
        cases hgf : falsy env.groqKey with
        | false => rfl
        | true => exact absurd (by simp [hgf]) h1
      refine ⟨hg, ?_⟩
      match ho : t.outcome with
      | AgentOutcome.ok text =>
          simp [h1, h2, ho] at h
          exact h.1
      | AgentOutcome.exn e =>
          simp [h1, h2, ho] at h
          exact h.1

theorem step_cacheConsistent (env : Env) (t : TurnInput) (sp : SessionState × ProcState)
    (h : cacheConsistent env sp.2) : cacheConsistent env (step env sp t).2 := by
  show cacheConsistent env (run_script env t sp.1 sp.2).proc
  rw [run_script_proc]
  exact cacheConsistent_load_agent env sp.2 h

theorem run_turns_cacheConsistent (env : Env) (ts : List TurnInput) :
    cacheConsistent env (run_turns env ts).2 := by
  unfold run_turns
  have hstep : ∀ sp, cacheConsistent env sp.2 →
      cacheConsistent env ((ts.foldl (step env) sp)).2 := by
    induction ts with
    | nil => intro sp h; exact h
    | cons t ts ih =>
        intro sp h
        exact ih _ (step_cacheConsistent env t sp h)
  exact hstep (initSession, freshProc) (cacheConsistent_fresh env)


/-- C9: in a process with fixed credentials, whenever the agent-invocation
code of a turn actually executes (an invocation event occurs in a run
reachable from a fresh session and process), the agent value it operates
on is not `None`: the startup gate stops every run in exactly the
condition under which `load_agent` caches `None`. -/
theorem agent_present_at_invocation (env : Env) (ts : List TurnInput) (t : TurnInput)
    (a : AgentRef) (q : String)
    (h : UiEvent.agentInvoked a q ∈
      (run_script env t (run_turns env ts).1 (run_turns env ts).2).events) :
    a ≠ AgentRef.pyNone := by
  obtain ⟨hg, ha⟩ := agent_invoked_inv env t _ _ a q h
  rw [ha]
  exact load_agent_not_none env (run_turns env ts).2 (run_turns_cacheConsistent env ts) hg

/-- Closed instance of `agent_present_at_invocation`: the first turn of a
fully configured process invokes agent 0, which is not `None`. -/
theorem agent_present_at_invocation_witness : AgentRef.agent 0 ≠ AgentRef.pyNone :=
  agent_present_at_invocation ⟨some "g", some "w"⟩ []
    ⟨some "hi", AgentOutcome.ok "sunny"⟩ (AgentRef.agent 0) "hi" (by decide)

end WeatherApp
